import Mathlib

/-!
# Doxygen search index `search/all_11.js`

The file `src/with_projects/search/all_11.js` is one JavaScript statement,
`var searchData = [ ... ];`, an array literal of nested arrays, strings and
numbers.  `JsValue` embeds exactly that fragment of JavaScript values and
`searchData` is the literal, transcribed entry by entry in source order.

`Record` / `Link` are the typed reading of one entry,
`[key, [label, [url, flag, title], [url, flag, title], ...]]`,
and `records` is the table decoded from `searchData`.
-/

namespace SearchIndex

/-- JavaScript values occurring in the array literal: strings, numbers, arrays. -/
inductive JsValue where
  | str : String → JsValue
  | num : Nat → JsValue
  | arr : List JsValue → JsValue

/-- Elements of an array value (no elements for a string or a number). -/
def JsValue.items : JsValue → List JsValue
  | .arr xs => xs
  | _ => []

/-- One link of a record: `[url, flag, title]` in the source. -/
structure Link where
  url : String
  flag : Nat
  title : String
  deriving DecidableEq, Repr

/-- One search record: `[key, [label, link, link, ...]]` in the source. -/
structure Record where
  key : String
  label : String
  links : List Link
  deriving DecidableEq, Repr

/-- The array `[url, flag, title]` of a link. -/
def encodeLink (l : Link) : JsValue :=
  .arr [.str l.url, .num l.flag, .str l.title]

/-- The array `[key, [label, link, link, ...]]` of a record. -/
def encodeEntry (r : Record) : JsValue :=
  .arr [.str r.key, .arr (.str r.label :: r.links.map encodeLink)]

/-- Reads a link from a value of the form `[url, flag, title]`. -/
def decodeLink : JsValue → Option Link
  | .arr [.str u, .num n, .str t] => some ⟨u, n, t⟩
  | _ => none

/-- Reads every value of a list as a link; fails if one of them is not a link. -/
def decodeLinks : List JsValue → Option (List Link)
  | [] => some []
  | v :: vs =>
    match decodeLink v, decodeLinks vs with
    | some l, some ls => some (l :: ls)
    | _, _ => none

/-- Reads a record from a value of the form `[key, [label, link, ...]]`. -/
def decodeEntry : JsValue → Option Record
  | .arr [.str k, .arr (.str lab :: vs)] =>
    match decodeLinks vs with
    | some ls => some ⟨k, lab, ls⟩
    | none => none
  | _ => none

/-- Reads every value of a list as a record; fails if one of them is not a record. -/
def decodeEntries : List JsValue → Option (List Record)
  | [] => some []
  | v :: vs =>
    match decodeEntry v, decodeEntries vs with
    | some r, some rs => some (r :: rs)
    | _, _ => none

def searchData : JsValue :=
  .arr [
    .arr [.str "rbegin_683", .arr [.str "rbegin",
      .arr [.str "../classnonstd_1_1span__lite_1_1span.html#a542e1381807fee1d0ddd69ee88de6a30", .num 1, .str "nonstd::span_lite::span"]]],
    .arr [.str "reactiondiffusionelementmatrixprovider_684", .arr [.str "ReactionDiffusionElementMatrixProvider",
      .arr [.str "../classlf_1_1uscalfe_1_1_reaction_diffusion_element_matrix_provider.html", .num 1, .str "lf::uscalfe::ReactionDiffusionElementMatrixProvider&lt; SCALAR, DIFF_COEFF, REACTION_COEFF &gt;"],
      .arr [.str "../classlf_1_1uscalfe_1_1_reaction_diffusion_element_matrix_provider.html#aca2fa93783bc09d6dc06073a552029fd", .num 1, .str "lf::uscalfe::ReactionDiffusionElementMatrixProvider::ReactionDiffusionElementMatrixProvider(const ReactionDiffusionElementMatrixProvider &amp;)=delete"],
      .arr [.str "../classlf_1_1uscalfe_1_1_reaction_diffusion_element_matrix_provider.html#afbe04398ecf6ad1ecfd008e9e5c211bb", .num 1, .str "lf::uscalfe::ReactionDiffusionElementMatrixProvider::ReactionDiffusionElementMatrixProvider(ReactionDiffusionElementMatrixProvider &amp;&amp;) noexcept=default"],
      .arr [.str "../classlf_1_1uscalfe_1_1_reaction_diffusion_element_matrix_provider.html#aa9d588faa6b61ed2f5c3f11d38dc0473", .num 1, .str "lf::uscalfe::ReactionDiffusionElementMatrixProvider::ReactionDiffusionElementMatrixProvider(std::shared_ptr&lt; const UniformScalarFESpace&lt; SCALAR &gt;&gt; fe_space, DIFF_COEFF alpha, REACTION_COEFF gamma)"],
      .arr [.str "../classlf_1_1uscalfe_1_1_reaction_diffusion_element_matrix_provider.html#ad0298a59882fa6d0a8a85786372072d3", .num 1, .str "lf::uscalfe::ReactionDiffusionElementMatrixProvider::ReactionDiffusionElementMatrixProvider(std::shared_ptr&lt; const UniformScalarFESpace&lt; SCALAR &gt;&gt; fe_space, DIFF_COEFF alpha, REACTION_COEFF gamma, quad_rule_collection_t qr_collection)"],
      .arr [.str "../namespacelf_1_1uscalfe.html#aa48094eeef07477f9c17a88d27da9053", .num 1, .str "lf::uscalfe::ReactionDiffusionElementMatrixProvider(PTR fe_space, DIFF_COEFF alpha, REACTION_COEFF gamma) -&gt; ReactionDiffusionElementMatrixProvider&lt; typename PTR::element_type::Scalar, DIFF_COEFF, REACTION_COEFF &gt;"],
      .arr [.str "../namespacelf_1_1uscalfe.html#acf1325ae1bc200f06a616db6724f9d98", .num 1, .str "lf::uscalfe::ReactionDiffusionElementMatrixProvider(PTR fe_space, DIFF_COEFF alpha, REACTION_COEFF gamma, std::map&lt; lf::base::RefEl, lf::quad::QuadRule &gt;) -&gt; ReactionDiffusionElementMatrixProvider&lt; typename PTR::element_type::Scalar, DIFF_COEFF, REACTION_COEFF &gt;"]]],
    .arr [.str "reactionelementmatrixprovider_685", .arr [.str "ReactionElementMatrixProvider",
      .arr [.str "../classprojects_1_1dpg_1_1_reaction_element_matrix_provider.html", .num 1, .str "projects::dpg::ReactionElementMatrixProvider&lt; SCALAR, REACTION_COEFF &gt;"],
      .arr [.str "../classprojects_1_1dpg_1_1_reaction_element_matrix_provider.html#af493463069385af7f0be30849641364b", .num 1, .str "projects::dpg::ReactionElementMatrixProvider::ReactionElementMatrixProvider(const ReactionElementMatrixProvider &amp;)=delete"],
      .arr [.str "../classprojects_1_1dpg_1_1_reaction_element_matrix_provider.html#aceb28f840ded872b0fef8184964f5380", .num 1, .str "projects::dpg::ReactionElementMatrixProvider::ReactionElementMatrixProvider(ReactionElementMatrixProvider &amp;&amp;) noexcept=default"],
      .arr [.str "../classprojects_1_1dpg_1_1_reaction_element_matrix_provider.html#af0af28f20e86ac66508bc084d725cdc6", .num 1, .str "projects::dpg::ReactionElementMatrixProvider::ReactionElementMatrixProvider(std::shared_ptr&lt; ProductUniformFESpace&lt; SCALAR &gt;&gt; fe_space_trial, std::shared_ptr&lt; ProductUniformFESpace&lt; SCALAR &gt;&gt; fe_space_test, size_type trial_component, size_type test_component, REACTION_COEFF gamma)"],
      .arr [.str "../namespaceprojects_1_1dpg.html#acf7c02a91ff20c48a7f14f76b5e9e578", .num 1, .str "projects::dpg::ReactionElementMatrixProvider()"]]],
    .arr [.str "readgmshfile_686", .arr [.str "ReadGmshFile",
      .arr [.str "../namespacelf_1_1io.html#a410f24b32d1ec23d83e1bd920bcce6dd", .num 1, .str "lf::io"]]],
    .arr [.str "readgmshfilev2_687", .arr [.str "readGmshFileV2",
      .arr [.str "../namespacelf_1_1io.html#a30b776f603940ae299b52e14caec34c9", .num 1, .str "lf::io"]]],
    .arr [.str "readgmshfilev4_688", .arr [.str "ReadGmshFileV4",
      .arr [.str "../namespacelf_1_1io.html#a88f2f0c13c993fcf48d5775cb818196c", .num 1, .str "lf::io"]]],
    .arr [.str "ref_5fel_5f_689", .arr [.str "ref_el_",
      .arr [.str "../classlf_1_1geometry_1_1_refinement_pattern.html#a4564d8f75ff93bca5606f70b7291f3f0", .num 1, .str "lf::geometry::RefinementPattern::ref_el_()"],
      .arr [.str "../classlf_1_1quad_1_1_quad_rule.html#a0a3947f52aaa4592a7ecad8b3f82d703", .num 1, .str "lf::quad::QuadRule::ref_el_()"]]],
    .arr [.str "ref_5fpat_690", .arr [.str "ref_pat",
      .arr [.str "../structlf_1_1refinement_1_1_point_child_info.html#a2f342ebcb5d6e0ad1abde37b9f1d715b", .num 1, .str "lf::refinement::PointChildInfo"]]],
    .arr [.str "ref_5fpat_5f_691", .arr [.str "ref_pat_",
      .arr [.str "../classlf_1_1refinement_1_1_hybrid2_d_refinement_pattern.html#a06ff15b1cb561166df241c8412068710", .num 1, .str "lf::refinement::Hybrid2DRefinementPattern::ref_pat_()"],
      .arr [.str "../structlf_1_1refinement_1_1_edge_child_info.html#ab8e0d47b3a731a4f5a2b02fc4ade8153", .num 1, .str "lf::refinement::EdgeChildInfo::ref_pat_()"],
      .arr [.str "../structlf_1_1refinement_1_1_cell_child_info.html#ada39a3ad1eb76326d0bf533dcf327f1b", .num 1, .str "lf::refinement::CellChildInfo::ref_pat_()"]]],
    .arr [.str "refel_692", .arr [.str "RefEl",
      .arr [.str "../classlf_1_1base_1_1_ref_el.html", .num 1, .str "lf::base::RefEl"],
      .arr [.str "../classlf_1_1base_1_1_ref_el.html#a42d6dd2294cba6a78ad7eda0666abfff", .num 1, .str "lf::base::RefEl::RefEl(RefElType type) noexcept"],
      .arr [.str "../classlf_1_1base_1_1_ref_el.html#a5f56ea04173ab3b9921a9b9097f8f101", .num 1, .str "lf::base::RefEl::RefEl(const RefEl &amp;)=default"],
      .arr [.str "../classlf_1_1base_1_1_ref_el.html#a5de9bf1b6375903b32c517ae32e0cbaa", .num 1, .str "lf::base::RefEl::RefEl(RefEl &amp;&amp;)=default"],
      .arr [.str "../classlf_1_1geometry_1_1_geometry.html#a01650d5915b0c23f6d4554b27f00f8f9", .num 1, .str "lf::geometry::Geometry::RefEl()"],
      .arr [.str "../classlf_1_1geometry_1_1_point.html#ae9d7901b6ea52ae0571d515f32f1f5cf", .num 1, .str "lf::geometry::Point::RefEl()"],
      .arr [.str "../classlf_1_1geometry_1_1_quad_o1.html#ae3796d7aea40094c48e829b44d2ed0bb", .num 1, .str "lf::geometry::QuadO1::RefEl()"],
      .arr [.str "../classlf_1_1geometry_1_1_parallelogram.html#adad596157c3b9382cb2ea4343691e3d9", .num 1, .str "lf::geometry::Parallelogram::RefEl()"],
      .arr [.str "../classlf_1_1geometry_1_1_quad_o2.html#a1a87d0b52418976793049986ebb70a8b", .num 1, .str "lf::geometry::QuadO2::RefEl()"],
      .arr [.str "../classlf_1_1geometry_1_1_refinement_pattern.html#ab0b8e4db76742f41c3d3a39199025207", .num 1, .str "lf::geometry::RefinementPattern::RefEl()"],
      .arr [.str "../classlf_1_1geometry_1_1_segment_o1.html#a7f8ac8da930b92750b50d82769dba42e", .num 1, .str "lf::geometry::SegmentO1::RefEl()"],
      .arr [.str "../classlf_1_1geometry_1_1_segment_o2.html#a551b6482012199263c00cadad986723d", .num 1, .str "lf::geometry::SegmentO2::RefEl()"],
      .arr [.str "../classlf_1_1geometry_1_1_tria_o1.html#af7d8e9c64e6510104d7515b8fcf2e810", .num 1, .str "lf::geometry::TriaO1::RefEl()"],
      .arr [.str "../classlf_1_1geometry_1_1_tria_o2.html#ab5af78bdbb5c115da160a08a36a88dd8", .num 1, .str "lf::geometry::TriaO2::RefEl()"],
      .arr [.str "../classlf_1_1mesh_1_1_entity.html#acff29c2e4f65daaef0152b07559b3f52", .num 1, .str "lf::mesh::Entity::RefEl()"],
      .arr [.str "../classlf_1_1mesh_1_1hybrid2d_1_1_point.html#aa9508fdb6ba1994302c12f5e95e345f1", .num 1, .str "lf::mesh::hybrid2d::Point::RefEl()"],
      .arr [.str "../classlf_1_1mesh_1_1hybrid2d_1_1_quadrilateral.html#a2ed196ecf2d4abd7ea9ff596a0815b71", .num 1, .str "lf::mesh::hybrid2d::Quadrilateral::RefEl()"],
      .arr [.str "../classlf_1_1mesh_1_1hybrid2d_1_1_segment.html#a60d92c71649da73506a062fde670eb12", .num 1, .str "lf::mesh::hybrid2d::Segment::RefEl()"],
      .arr [.str "../classlf_1_1mesh_1_1hybrid2d_1_1_triangle.html#a6c0d885928802ede3129e0c313266a64", .num 1, .str "lf::mesh::hybrid2d::Triangle::RefEl()"],
      .arr [.str "../classlf_1_1quad_1_1_quad_rule.html#a54d132f3ccb2497e9421d5d6a5489c6f", .num 1, .str "lf::quad::QuadRule::RefEl()"],
      .arr [.str "../classlf_1_1uscalfe_1_1_scalar_reference_finite_element.html#ae12a13ea16a1b7317e89c1def827cc9e", .num 1, .str "lf::uscalfe::ScalarReferenceFiniteElement::RefEl()"],
      .arr [.str "../classlf_1_1uscalfe_1_1_fe_lagrange_o1_tria.html#aadd98226e7bd0c814601b91169a14061", .num 1, .str "lf::uscalfe::FeLagrangeO1Tria::RefEl()"],
      .arr [.str "../classlf_1_1uscalfe_1_1_fe_lagrange_o1_quad.html#a01d24d990744351f02b71fdbe00f89c8", .num 1, .str "lf::uscalfe::FeLagrangeO1Quad::RefEl()"],
      .arr [.str "../classlf_1_1uscalfe_1_1_fe_lagrange_o1_segment.html#a35d4a97a2baa11107a68a6ea34772fbf", .num 1, .str "lf::uscalfe::FeLagrangeO1Segment::RefEl()"],
      .arr [.str "../classlf_1_1uscalfe_1_1_fe_lagrange_point.html#a2bbdd36a3b2d07a35d40f4a1ee207b28", .num 1, .str "lf::uscalfe::FeLagrangePoint::RefEl()"],
      .arr [.str "../classlf_1_1uscalfe_1_1_fe_lagrange_o2_tria.html#a5493f8acf603614ee87119ebcf9e390d", .num 1, .str "lf::uscalfe::FeLagrangeO2Tria::RefEl()"],
      .arr [.str "../classlf_1_1uscalfe_1_1_fe_lagrange_o2_segment.html#aab501bd471350682d9be54f233e267e3", .num 1, .str "lf::uscalfe::FeLagrangeO2Segment::RefEl()"],
      .arr [.str "../classlf_1_1uscalfe_1_1_fe_lagrange_o2_quad.html#ace2cd43be17649eded8c09e7cdf62465", .num 1, .str "lf::uscalfe::FeLagrangeO2Quad::RefEl()"],
      .arr [.str "../classlf_1_1uscalfe_1_1_fe_lagrange_o3_tria.html#ac18f20f9bd97cd1667ffca5343026ed3", .num 1, .str "lf::uscalfe::FeLagrangeO3Tria::RefEl()"],
      .arr [.str "../classlf_1_1uscalfe_1_1_fe_lagrange_o3_segment.html#af5d0140ac1016dff08294c179855902f", .num 1, .str "lf::uscalfe::FeLagrangeO3Segment::RefEl()"],
      .arr [.str "../classlf_1_1uscalfe_1_1_fe_lagrange_o3_quad.html#ad26bac3dcf224dde39f4a2a10d18a08f", .num 1, .str "lf::uscalfe::FeLagrangeO3Quad::RefEl()"],
      .arr [.str "../classlf_1_1uscalfe_1_1_precomputed_scalar_reference_finite_element.html#a598cc283cce850250029e60a42e60b68", .num 1, .str "lf::uscalfe::PrecomputedScalarReferenceFiniteElement::RefEl()"],
      .arr [.str "../classprojects_1_1dpg_1_1_fe_discontinuous_o0_tria.html#acb22239e2d3ccc1597c99ad7cb14ed04", .num 1, .str "projects::dpg::FeDiscontinuousO0Tria::RefEl()"],
      .arr [.str "../classprojects_1_1dpg_1_1_fe_discontinuous_o0_quad.html#a7fb3f949ef09be8d452d2af94fd03715", .num 1, .str "projects::dpg::FeDiscontinuousO0Quad::RefEl()"],
      .arr [.str "../classprojects_1_1dpg_1_1_fe_discontinuous_o0_segment.html#ac34bd7659567b68c5da084a16ce63a8d", .num 1, .str "projects::dpg::FeDiscontinuousO0Segment::RefEl()"],
      .arr [.str "../classprojects_1_1dpg_1_1_discontinuous_scalar_reference_finite_element.html#a135b13bb93d6e5fe77f2dd5c9cc7b396", .num 1, .str "projects::dpg::DiscontinuousScalarReferenceFiniteElement::RefEl()"],
      .arr [.str "../classprojects_1_1dpg_1_1_trace_scalar_reference_finite_element.html#a3382b91fe29c535dbb76278fcbe9e496", .num 1, .str "projects::dpg::TraceScalarReferenceFiniteElement::RefEl()"]]],
    .arr [.str "refelof_693", .arr [.str "RefElOf",
      .arr [.str "../namespacelf_1_1io.html#add72abec702b3036052244b1fa0fa4a1", .num 1, .str "lf::io::RefElOf(GMshFileV2::ElementType et)"],
      .arr [.str "../namespacelf_1_1io.html#acb530e22b79e3df7b44f948ccfd0f633", .num 1, .str "lf::io::RefElOf(GMshFileV4::ElementType et)"]]],
    .arr [.str "refeltype_694", .arr [.str "RefElType",
      .arr [.str "../namespacelf_1_1base.html#a2c68b938de56a5b67e3075dbcab4cb21", .num 1, .str "lf::base"]]],
    .arr [.str "reference_695", .arr [.str "reference",
      .arr [.str "../classnonstd_1_1span__lite_1_1span.html#a1f5f8514d5883012f9cdb08dc8ac0669", .num 1, .str "nonstd::span_lite::span"]]],
    .arr [.str "referencefiniteelement_696", .arr [.str "ReferenceFiniteElement",
      .arr [.str "../classprojects_1_1dpg_1_1_product_uniform_f_e_space_factory.html#acf96803ceca976dbac03ecaab971a115", .num 1, .str "projects::dpg::ProductUniformFESpaceFactory"]]],
    .arr [.str "refinemarked_697", .arr [.str "RefineMarked",
      .arr [.str "../classlf_1_1refinement_1_1_mesh_hierarchy.html#a693d5d31b5aaf0b9e077d890f3062022", .num 1, .str "lf::refinement::MeshHierarchy"]]],
    .arr [.str "refinement_5fedges_5f_698", .arr [.str "refinement_edges_",
      .arr [.str "../classlf_1_1refinement_1_1_mesh_hierarchy.html#a7e2e8359fa3b2a011cf700d0672e6144", .num 1, .str "lf::refinement::MeshHierarchy"]]],
    .arr [.str "refinementedges_699", .arr [.str "RefinementEdges",
      .arr [.str "../classlf_1_1refinement_1_1_mesh_hierarchy.html#ae631d3d4b080210e7fe28b0cb18a6a1b", .num 1, .str "lf::refinement::MeshHierarchy"]]],
    .arr [.str "refinementpattern_700", .arr [.str "RefinementPattern",
      .arr [.str "../classlf_1_1geometry_1_1_refinement_pattern.html", .num 1, .str "lf::geometry::RefinementPattern"],
      .arr [.str "../classlf_1_1geometry_1_1_refinement_pattern.html#a4730c2116d061a779c63ae3f7a1314f5", .num 1, .str "lf::geometry::RefinementPattern::RefinementPattern(const RefinementPattern &amp;)=default"],
      .arr [.str "../classlf_1_1geometry_1_1_refinement_pattern.html#a2daeb74137c6b6c5f31f51ed7c3473cc", .num 1, .str "lf::geometry::RefinementPattern::RefinementPattern(RefinementPattern &amp;&amp;)=default"],
      .arr [.str "../classlf_1_1geometry_1_1_refinement_pattern.html#aab8039849dd6bec9c36877b236bcdbc3", .num 1, .str "lf::geometry::RefinementPattern::RefinementPattern(lf::base::RefEl ref_el)"],
      .arr [.str "../classlf_1_1geometry_1_1_refinement_pattern.html#aed36d2b33289fb809ab573b076d2a355", .num 1, .str "lf::geometry::RefinementPattern::RefinementPattern(lf::base::RefEl ref_el, lf::base::size_type lattice_const)"]]],
    .arr [.str "refineregular_701", .arr [.str "RefineRegular",
      .arr [.str "../classlf_1_1refinement_1_1_mesh_hierarchy.html#a40f62ce5f838a648e584015fc712ab27", .num 1, .str "lf::refinement::MeshHierarchy"]]],
    .arr [.str "refpat_702", .arr [.str "refpat",
      .arr [.str "../classlf_1_1refinement_1_1_hybrid2_d_refinement_pattern.html#ad523ddfc3c29167b78009e90a92d5464", .num 1, .str "lf::refinement::Hybrid2DRefinementPattern::refpat()"],
      .arr [.str "../namespacelf_1_1refinement.html#aad00cb5a8084400b931b01984d2cdc5d", .num 1, .str "lf::refinement::RefPat()"]]],
    .arr [.str "rel_5fref_5fgeo_5f_703", .arr [.str "rel_ref_geo_",
      .arr [.str "../structlf_1_1refinement_1_1_parent_info.html#a746e309c7cdbee771b13f843466cda11", .num 1, .str "lf::refinement::ParentInfo"]]],
    .arr [.str "relativeorientations_704", .arr [.str "RelativeOrientations",
      .arr [.str "../classlf_1_1mesh_1_1_entity.html#a1a7009a490619329b470bae0ef39bc08", .num 1, .str "lf::mesh::Entity::RelativeOrientations()"],
      .arr [.str "../classlf_1_1mesh_1_1hybrid2d_1_1_point.html#a5ddca8998cea4637b2852d6297bf1c21", .num 1, .str "lf::mesh::hybrid2d::Point::RelativeOrientations()"],
      .arr [.str "../classlf_1_1mesh_1_1hybrid2d_1_1_quadrilateral.html#a545e82b1813c8b665dd0c6838c2f2ebe", .num 1, .str "lf::mesh::hybrid2d::Quadrilateral::RelativeOrientations()"],
      .arr [.str "../classlf_1_1mesh_1_1hybrid2d_1_1_segment.html#accab0423a1a1926c1ce98de8f038da5a", .num 1, .str "lf::mesh::hybrid2d::Segment::RelativeOrientations()"],
      .arr [.str "../classlf_1_1mesh_1_1hybrid2d_1_1_triangle.html#ae1cdb0e3196977e7ec2bba9f32a7185b", .num 1, .str "lf::mesh::hybrid2d::Triangle::RelativeOrientations()"]]],
    .arr [.str "remove_705", .arr [.str "Remove",
      .arr [.str "../namespacelf_1_1base_1_1comm_1_1variables.html#ad27af0884d6e92686940517bf19569a0", .num 1, .str "lf::base::comm::variables"]]],
    .arr [.str "rend_706", .arr [.str "rend",
      .arr [.str "../classnonstd_1_1span__lite_1_1span.html#a2f18f96c3b414ab2e3a9f2f5d4f4a61b", .num 1, .str "nonstd::span_lite::span"]]],
    .arr [.str "rendercells_707", .arr [.str "RenderCells",
      .arr [.str "../namespacelf_1_1io.html#a1e6d52a0a94a802c60564378bd70048babc166a6fc7b29df8b466e69c86c8db18", .num 1, .str "lf::io"]]],
    .arr [.str "result_5ftype_708", .arr [.str "result_type",
      .arr [.str "../class_variant_visitor.html#aa31bf2f433857af13e205688586a76c6", .num 1, .str "VariantVisitor"]]],
    .arr [.str "reverse_5fiterator_709", .arr [.str "reverse_iterator",
      .arr [.str "../classnonstd_1_1span__lite_1_1span.html#a56eb30b048b7f9fd7b6e82c16379c267", .num 1, .str "nonstd::span_lite::span"]]],
    .arr [.str "rfs_5fedge_5fp_5f_710", .arr [.str "rfs_edge_p_",
      .arr [.str "../classlf_1_1uscalfe_1_1_uniform_scalar_f_e_space.html#a172259e3c06401eed3bfe5cce3b16830", .num 1, .str "lf::uscalfe::UniformScalarFESpace"]]],
    .arr [.str "rfs_5fedge_5fv_5f_711", .arr [.str "rfs_edge_v_",
      .arr [.str "../classprojects_1_1dpg_1_1_product_uniform_f_e_space.html#aeb641be57832b64eaeb6bdc25e93106f", .num 1, .str "projects::dpg::ProductUniformFESpace"]]],
    .arr [.str "rfs_5fpoint_5fp_5f_712", .arr [.str "rfs_point_p_",
      .arr [.str "../classlf_1_1uscalfe_1_1_uniform_scalar_f_e_space.html#a8b7f57f825f7ee78c9fdf38d603833b6", .num 1, .str "lf::uscalfe::UniformScalarFESpace"]]],
    .arr [.str "rfs_5fpoint_5fv_5f_713", .arr [.str "rfs_point_v_",
      .arr [.str "../classprojects_1_1dpg_1_1_product_uniform_f_e_space.html#a52534c83e9e419cb2217793e83903522", .num 1, .str "projects::dpg::ProductUniformFESpace::rfs_point_v_()"],
      .arr [.str "../classprojects_1_1dpg_1_1_product_uniform_f_e_space_factory.html#aa1115a034e576593184c563b35c6e718", .num 1, .str "projects::dpg::ProductUniformFESpaceFactory::rfs_point_v_()"]]],
    .arr [.str "rfs_5fquad_5fp_5f_714", .arr [.str "rfs_quad_p_",
      .arr [.str "../classlf_1_1uscalfe_1_1_uniform_scalar_f_e_space.html#a2082e32eb69e55e5b08afbff4315a0d1", .num 1, .str "lf::uscalfe::UniformScalarFESpace"]]],
    .arr [.str "rfs_5fquad_5fv_5f_715", .arr [.str "rfs_quad_v_",
      .arr [.str "../classprojects_1_1dpg_1_1_product_uniform_f_e_space.html#af993f70e013a472c861ad080f54a1fcb", .num 1, .str "projects::dpg::ProductUniformFESpace::rfs_quad_v_()"],
      .arr [.str "../classprojects_1_1dpg_1_1_product_uniform_f_e_space_factory.html#ae087e5831dcea7d8b4194ea5f3b5f4ae", .num 1, .str "projects::dpg::ProductUniformFESpaceFactory::rfs_quad_v_()"]]],
    .arr [.str "rfs_5fsegment_5fv_5f_716", .arr [.str "rfs_segment_v_",
      .arr [.str "../classprojects_1_1dpg_1_1_product_uniform_f_e_space_factory.html#a723d9f1dba50490fdc9bd9933a91647d", .num 1, .str "projects::dpg::ProductUniformFESpaceFactory"]]],
    .arr [.str "rfs_5ftria_5fp_5f_717", .arr [.str "rfs_tria_p_",
      .arr [.str "../classlf_1_1uscalfe_1_1_uniform_scalar_f_e_space.html#ae35028aead155c113014f864eb3d9e54", .num 1, .str "lf::uscalfe::UniformScalarFESpace"]]],
    .arr [.str "rfs_5ftria_5fv_5f_718", .arr [.str "rfs_tria_v_",
      .arr [.str "../classprojects_1_1dpg_1_1_product_uniform_f_e_space.html#a63954592e914a82f2fa3a33cf63c0c7d", .num 1, .str "projects::dpg::ProductUniformFESpace::rfs_tria_v_()"],
      .arr [.str "../classprojects_1_1dpg_1_1_product_uniform_f_e_space_factory.html#ada0d11d77388d4602c3fbd33f21406e7", .num 1, .str "projects::dpg::ProductUniformFESpaceFactory::rfs_tria_v_()"]]],
    .arr [.str "rhs_719", .arr [.str "rhs",
      .arr [.str "../struct_problem_solution.html#a994fae17d03e65883b90a39bab52e1c6", .num 1, .str "ProblemSolution"]]],
    .arr [.str "rows_720", .arr [.str "rows",
      .arr [.str "../classlf_1_1assemble_1_1_c_o_o_matrix.html#add78cb109452854fb0e3ee95b60e2dee", .num 1, .str "lf::assemble::COOMatrix"]]],
    .arr [.str "rows_5f_721", .arr [.str "rows_",
      .arr [.str "../classlf_1_1assemble_1_1_c_o_o_matrix.html#ac43d1ef77c060500570e654755d5b9d2", .num 1, .str "lf::assemble::COOMatrix"]]],
    .arr [.str "rp_5fbarycentric_722", .arr [.str "rp_barycentric",
      .arr [.str "../namespacelf_1_1refinement.html#aad00cb5a8084400b931b01984d2cdc5daa5b73e463fe71ba04c02fdb50fcc7ab2", .num 1, .str "lf::refinement"]]],
    .arr [.str "rp_5fbisect_723", .arr [.str "rp_bisect",
      .arr [.str "../namespacelf_1_1refinement.html#aad00cb5a8084400b931b01984d2cdc5da9bf14af506f6981c03495f2eadd52541", .num 1, .str "lf::refinement"]]],
    .arr [.str "rp_5fcopy_724", .arr [.str "rp_copy",
      .arr [.str "../namespacelf_1_1refinement.html#aad00cb5a8084400b931b01984d2cdc5daf758aedf6fd554c7805371670af9d0fd", .num 1, .str "lf::refinement"]]],
    .arr [.str "rp_5fnil_725", .arr [.str "rp_nil",
      .arr [.str "../namespacelf_1_1refinement.html#aad00cb5a8084400b931b01984d2cdc5dac6513b67a4ed3792584ff7c2e70142db", .num 1, .str "lf::refinement"]]],
    .arr [.str "rp_5fquadsect_726", .arr [.str "rp_quadsect",
      .arr [.str "../namespacelf_1_1refinement.html#aad00cb5a8084400b931b01984d2cdc5daa25eb3bd6bfa90d4edb1162858054c8c", .num 1, .str "lf::refinement"]]],
    .arr [.str "rp_5fregular_727", .arr [.str "rp_regular",
      .arr [.str "../namespacelf_1_1refinement.html#aad00cb5a8084400b931b01984d2cdc5da9e04795f066597d1962a6ef04cfd3558", .num 1, .str "lf::refinement"]]],
    .arr [.str "rp_5fsplit_728", .arr [.str "rp_split",
      .arr [.str "../namespacelf_1_1refinement.html#aad00cb5a8084400b931b01984d2cdc5da2635be74cf0f1a7aff89e854e090ae08", .num 1, .str "lf::refinement"]]],
    .arr [.str "rp_5fthreeedge_729", .arr [.str "rp_threeedge",
      .arr [.str "../namespacelf_1_1refinement.html#aad00cb5a8084400b931b01984d2cdc5daf003e2c1bfb07df00ebe6136e26e2af0", .num 1, .str "lf::refinement"]]],
    .arr [.str "rp_5ftrisect_730", .arr [.str "rp_trisect",
      .arr [.str "../namespacelf_1_1refinement.html#aad00cb5a8084400b931b01984d2cdc5da86c7d80e9f636c68feffed426cf04a60", .num 1, .str "lf::refinement"]]],
    .arr [.str "rp_5ftrisect_5fleft_731", .arr [.str "rp_trisect_left",
      .arr [.str "../namespacelf_1_1refinement.html#aad00cb5a8084400b931b01984d2cdc5da8b16ad12dc10ff824d113777e68aa770", .num 1, .str "lf::refinement"]]]
  ]

/-- The table of search records read from `searchData` (empty if the
literal did not have the record layout). -/
def records : List Record :=
  (decodeEntries searchData.items).getD []

/-- The keys of the table, in file order. -/
def keys : List String :=
  records.map Record.key

/-- The first record of the file (source line 3). -/
def rbeginRecord : Record :=
  ⟨"rbegin_683", "rbegin",
    [⟨"../classnonstd_1_1span__lite_1_1span.html#a542e1381807fee1d0ddd69ee88de6a30", 1,
      "nonstd::span_lite::span"⟩]⟩

/-- The first entry of the array literal (source line 3), as written in the file. -/
def rbeginEntry : JsValue :=
  .arr [.str "rbegin_683", .arr [.str "rbegin",
    .arr [.str "../classnonstd_1_1span__lite_1_1span.html#a542e1381807fee1d0ddd69ee88de6a30",
      .num 1, .str "nonstd::span_lite::span"]]]

/-- The only link of the first record. -/
def rbeginLink : Link :=
  ⟨"../classnonstd_1_1span__lite_1_1span.html#a542e1381807fee1d0ddd69ee88de6a30", 1,
    "nonstd::span_lite::span"⟩

/-- The first link of the second record (source line 4): a class page, no fragment. -/
def classPageLink : Link :=
  ⟨"../classlf_1_1uscalfe_1_1_reaction_diffusion_element_matrix_provider.html", 1,
    "lf::uscalfe::ReactionDiffusionElementMatrixProvider&lt; SCALAR, DIFF_COEFF, REACTION_COEFF &gt;"⟩

/-! ### Layout as the specification words it -/

/-- A link as the specification words it: a pair `[url, title]` of two strings. -/
def isSpecLink : JsValue → Bool
  | .arr [.str _, .str _] => true
  | _ => false

/-- An entry as the specification words it: `[key, [label, links]]`, the inner
array having exactly two elements, the second one an array of `[url, title]` pairs. -/
def isSpecEntry : JsValue → Bool
  | .arr [.str _, .arr [.str _, .arr links]] => links.all isSpecLink
  | _ => false

/-! ### String operations used by the properties -/

/-- Lowercasing, character by character (`A`..`Z` to `a`..`z`, every other
character unchanged); on the ASCII text of this file it is JavaScript's
`toLowerCase`. -/
def toLowerCase (s : String) : String :=
  ⟨s.data.map Char.toLower⟩

/-- Encoding of one character of a label inside a key: `_` becomes `_5f`. -/
def encChar (c : Char) : List Char :=
  if c = '_' then ['_', '5', 'f'] else [c]

/-- Encoding of a label inside a key: every underscore is replaced by `_5f`. -/
def enc (s : String) : String :=
  ⟨s.data.flatMap encChar⟩

/-- The key generated for a label at 0-based position `i` of this file. -/
def derivedKey (label : String) (i : Nat) : String :=
  enc (toLowerCase label) ++ "_" ++ Nat.repr (683 + i)

/-- Characters a key is made of: lowercase ASCII letters, digits, underscore. -/
def isKeyChar (c : Char) : Bool :=
  c.isLower || c.isDigit || c == '_'

/-- Removes a trailing `_<number>` (an underscore followed by one or more
decimal digits up to the end); a string without such a suffix is unchanged. -/
def stripNumberSuffix (s : String) : String :=
  let rev := s.data.reverse
  match rev.takeWhile Char.isDigit, rev.dropWhile Char.isDigit with
  | _ :: _, '_' :: rest => ⟨rest.reverse⟩
  | _, _ => s

/-- The part of a url before the first `#` (the whole url when there is none). -/
def pagePart (url : String) : List Char :=
  url.data.takeWhile (fun c => c != '#')

/-- The part of a url after the first `#`, `none` when the url has no `#`. -/
def fragment (url : String) : Option (List Char) :=
  match url.data.dropWhile (fun c => c != '#') with
  | [] => none
  | _ :: rest => some rest

/-- The file name of the page a url points to: the page part without the leading `../`. -/
def pageFile (url : String) : List Char :=
  (pagePart url).drop 3

/-- Keys of the records whose first link is the documentation page of a class itself. -/
def classRecordKeys : List String :=
  ["reactiondiffusionelementmatrixprovider_684", "reactionelementmatrixprovider_685",
    "refel_692", "refinementpattern_700"]

/-! ## Shared facts about the table -/

theorem records_length : records.length = 49 := by decide!

theorem keys_nodup : keys.Nodup := by decide!

theorem decodeLinks_sound : ∀ (vs : List JsValue) (ls : List Link),
    decodeLinks vs = some ls → vs = ls.map encodeLink := by
  intro vs
  induction vs with
  | nil =>
    intro ls h
    simp [decodeLinks] at h
    subst h
    rfl
  | cons v vs ih =>
    intro ls h
    unfold decodeLinks at h
    split at h
    · rename_i l ls' hl hls
      simp only [Option.some.injEq] at h
      subst h
      have hv : v = encodeLink l := by
        unfold decodeLink at hl
        split at hl
        · simp only [Option.some.injEq] at hl
          subst hl
          rfl
        · cases hl
      rw [List.map_cons, ← ih ls' hls, hv]
    · cases h

theorem decodeEntry_sound (e : JsValue) (r : Record) (h : decodeEntry e = some r) :
    e = encodeEntry r := by
  unfold decodeEntry at h
  split at h
  · rename_i k lab vs
    split at h
    · rename_i ls hls
      simp only [Option.some.injEq] at h
      subst h
      simp only [encodeEntry]
      rw [← decodeLinks_sound vs ls hls]
    · cases h
  · cases h

theorem decodeEntries_sound : ∀ (vs : List JsValue) (rs : List Record),
    decodeEntries vs = some rs → vs = rs.map encodeEntry := by
  intro vs
  induction vs with
  | nil =>
    intro rs h
    simp [decodeEntries] at h
    subst h
    rfl
  | cons v vs ih =>
    intro rs h
    unfold decodeEntries at h
    split at h
    · rename_i r rs' hr hrs
      simp only [Option.some.injEq] at h
      subst h
      rw [List.map_cons, ← ih rs' hrs, ← decodeEntry_sound v r hr]
    · cases h

theorem searchData_decodes : decodeEntries searchData.items = some records := by
  have h : (decodeEntries searchData.items).isSome = true := by decide!
  unfold records
  cases hd : decodeEntries searchData.items with
  | none => rw [hd] at h; cases h
  | some rs => rfl

theorem searchData_items : searchData.items = records.map encodeEntry :=
  decodeEntries_sound _ _ searchData_decodes

/-! ## The properties of the table -/

/-- C1: keys are unique within the file: two records at distinct positions
`i ≠ j` of the table have different keys. -/
theorem key_unique (i j : Fin records.length) (hij : i ≠ j) :
    (records.get i).key ≠ (records.get j).key := by
  intro heq
  apply hij
  have hi : i.val < keys.length := by simp [keys]
  have hj : j.val < keys.length := by simp [keys]
  have hk : keys[i.val] = keys[j.val] := by
    simpa [keys] using heq
  exact Fin.ext ((List.Nodup.getElem_inj_iff keys_nodup).1 hk)

theorem key_unique_witness :
    (records.get ⟨0, by decide!⟩).key ≠ (records.get ⟨1, by decide!⟩).key :=
  key_unique ⟨0, by decide!⟩ ⟨1, by decide!⟩ (by decide)

/-- C2: every key is non-empty and lowercase: it has at least one character,
none of its characters is an uppercase letter, lowercasing leaves it unchanged
(all its characters are lowercase ASCII letters, digits or underscores). -/
theorem key_nonempty_lowercase (r : Record) (hr : r ∈ records) :
    1 ≤ r.key.length ∧ (∀ c ∈ r.key.data, c.isUpper = false) ∧
      toLowerCase r.key = r.key ∧ ∀ c ∈ r.key.data, isKeyChar c = true := by
  have h : ∀ r ∈ records, 1 ≤ r.key.length ∧ (∀ c ∈ r.key.data, c.isUpper = false) ∧
      toLowerCase r.key = r.key ∧ ∀ c ∈ r.key.data, isKeyChar c = true := by decide!
  exact h r hr

theorem key_nonempty_lowercase_witness :
    rbeginRecord ∈ records ∧ 1 ≤ rbeginRecord.key.length ∧
      (∀ c ∈ rbeginRecord.key.data, c.isUpper = false) ∧
      toLowerCase rbeginRecord.key = rbeginRecord.key ∧
      ∀ c ∈ rbeginRecord.key.data, isKeyChar c = true :=
  ⟨by decide!, key_nonempty_lowercase rbeginRecord (by decide!)⟩

/-- C3, counterexample: the first entry of the file, `['rbegin_683',['rbegin',[url,1,title]]]`,
does not have the layout `[key, [label, sequence-of-[url, title]]]`: what follows the
label is the link itself, a 3-element array `[url, 1, title]`, not a sequence of pairs. -/
theorem entry_layout_counterexample :
    searchData.items.head? = some rbeginEntry ∧ isSpecEntry rbeginEntry = false :=
  ⟨rfl, rfl⟩

/-- C3, amended: every entry of `searchData` is a 2-element array `[key, info]`
where `info` is the label string followed directly by the links, each link a
3-element array `[url, 1, title]` of a url string, the number 1 and a title string. -/
theorem entry_layout (e : JsValue) (he : e ∈ searchData.items) :
    ∃ (key label : String) (links : List Link),
      e = .arr [.str key, .arr (.str label ::
        links.map (fun l => JsValue.arr [.str l.url, .num 1, .str l.title]))] := by
  have hflag : ∀ r ∈ records, ∀ l ∈ r.links, l.flag = 1 := by decide!
  rw [searchData_items, List.mem_map] at he
  obtain ⟨r, hr, rfl⟩ := he
  refine ⟨r.key, r.label, r.links, ?_⟩
  have hmap : r.links.map encodeLink =
      r.links.map (fun l => JsValue.arr [.str l.url, .num 1, .str l.title]) := by
    apply List.map_congr_left
    intro l hl
    simp only [encodeLink, hflag r hr l hl]
  rw [← hmap]
  rfl

theorem entry_layout_witness :
    rbeginEntry ∈ searchData.items ∧
    ∃ (key label : String) (links : List Link),
      rbeginEntry = .arr [.str key, .arr (.str label ::
        links.map (fun l => JsValue.arr [.str l.url, .num 1, .str l.title]))] :=
  ⟨List.mem_of_mem_head? (show searchData.items.head? = some rbeginEntry from rfl),
    entry_layout rbeginEntry
      (List.mem_of_mem_head? (show searchData.items.head? = some rbeginEntry from rfl))⟩

/-- C4: every record maps its key to one or more links: the sequence of links
that follows the label is non-empty. -/
theorem links_nonempty (r : Record) (hr : r ∈ records) :
    r.links ≠ [] ∧ 1 ≤ r.links.length := by
  have h : ∀ r ∈ records, r.links ≠ [] ∧ 1 ≤ r.links.length := by decide!
  exact h r hr

theorem links_nonempty_witness :
    rbeginRecord ∈ records ∧ rbeginRecord.links ≠ [] ∧ 1 ≤ rbeginRecord.links.length :=
  ⟨by decide!, links_nonempty rbeginRecord (by decide!)⟩


/-- C5, counterexample: the first link of the second record (source line 4,
`reactiondiffusionelementmatrixprovider_684`) has the url
`../classlf_1_1uscalfe_1_1_reaction_diffusion_element_matrix_provider.html`,
which contains no `#`, hence carries no fragment. -/
theorem link_fragment_counterexample :
    (records[1]?).bind (fun r => r.links.head?) = some classPageLink ∧
      '#' ∉ classPageLink.url.data ∧ fragment classPageLink.url = none := by
  decide!

/-- C5, amended: a link url never ends right after its `#` (a fragment, when
present, is `#` followed by a non-empty anchor id without a further `#`), and
the links without any fragment are exactly the first links of the four class
records `reactiondiffusionelementmatrixprovider_684`,
`reactionelementmatrixprovider_685`, `refel_692` and `refinementpattern_700`,
which point to the class page as a whole. -/
theorem link_fragment (r : Record) (hr : r ∈ records) (l : Link) (hl : l ∈ r.links) :
    fragment l.url ≠ some [] ∧
      (∀ a, fragment l.url = some a → a ≠ [] ∧ '#' ∉ a) ∧
      (fragment l.url = none ↔ (r.links.head? = some l ∧ r.key ∈ classRecordKeys)) := by
  have h : ∀ r ∈ records, ∀ l ∈ r.links,
      fragment l.url ≠ some [] ∧
      ((fragment l.url).getD []).all (fun c => c != '#') = true ∧
      (fragment l.url = none ↔ (r.links.head? = some l ∧ r.key ∈ classRecordKeys)) := by
    decide!
  obtain ⟨h1, h2, h3⟩ := h r hr l hl
  refine ⟨h1, ?_, h3⟩
  intro a ha
  rw [ha] at h1 h2
  refine ⟨fun hnil => h1 (by rw [hnil]), ?_⟩
  intro hmem
  have := List.all_eq_true.1 h2 _ hmem
  simp at this

theorem link_fragment_witness :
    rbeginRecord ∈ records ∧ rbeginLink ∈ rbeginRecord.links ∧
      fragment rbeginLink.url = some "a542e1381807fee1d0ddd69ee88de6a30".data ∧
      fragment rbeginLink.url ≠ some [] ∧
      (∀ a, fragment rbeginLink.url = some a → a ≠ [] ∧ '#' ∉ a) ∧
      (fragment rbeginLink.url = none ↔
        (rbeginRecord.links.head? = some rbeginLink ∧ rbeginRecord.key ∈ classRecordKeys)) :=
  ⟨by decide!, by decide!, by decide!,
    link_fragment rbeginRecord (by decide!) rbeginLink (by decide!)⟩

/-- C6: every link url points into a generated HTML page: it starts with `../`,
and its part before the first `#` (the whole url when there is no `#`) is
non-empty and ends in `.html`; more precisely that part is `../` followed by a
file name without `/` that is longer than its extension `.html`. -/
theorem link_page (r : Record) (hr : r ∈ records) (l : Link) (hl : l ∈ r.links) :
    "../".data <+: l.url.data ∧ pagePart l.url ≠ [] ∧ ".html".data <:+ pagePart l.url ∧
      pagePart l.url = "../".data ++ pageFile l.url ∧
      ".html".data <:+ pageFile l.url ∧ 5 < (pageFile l.url).length ∧
      '/' ∉ pageFile l.url := by
  have h : ∀ r ∈ records, ∀ l ∈ r.links,
      "../".data <+: l.url.data ∧ pagePart l.url ≠ [] ∧ ".html".data <:+ pagePart l.url ∧
      pagePart l.url = "../".data ++ pageFile l.url ∧
      ".html".data <:+ pageFile l.url ∧ 5 < (pageFile l.url).length ∧
      '/' ∉ pageFile l.url := by
    decide!
  exact h r hr l hl

theorem link_page_witness :
    rbeginRecord ∈ records ∧ rbeginLink ∈ rbeginRecord.links ∧
      pageFile rbeginLink.url = "classnonstd_1_1span__lite_1_1span.html".data ∧
      "../".data <+: rbeginLink.url.data ∧ pagePart rbeginLink.url ≠ [] ∧
      ".html".data <:+ pagePart rbeginLink.url ∧
      pagePart rbeginLink.url = "../".data ++ pageFile rbeginLink.url ∧
      ".html".data <:+ pageFile rbeginLink.url ∧ 5 < (pageFile rbeginLink.url).length ∧
      '/' ∉ pageFile rbeginLink.url :=
  ⟨by decide!, by decide!, by decide!,
    link_page rbeginRecord (by decide!) rbeginLink (by decide!)⟩

/-- C7: the key of each record is derived from its label and position: the table
has 49 records and the key at 0-based position `i` is
`enc (lowercase label) ++ "_" ++ decimal (683 + i)`, where `enc` replaces every
underscore by `_5f`; the labels consist of ASCII letters, digits and underscores
only, so the numeric suffixes run from 683 to 731. -/
theorem key_derived :
    records.length = 49 ∧
      (∀ i : Fin records.length,
        (records.get i).key = derivedKey (records.get i).label i.val) ∧
      ∀ i : Fin records.length, ∀ c ∈ (records.get i).label.data,
        c.isAlphanum = true ∨ c = '_' := by
  decide!

theorem key_derived_witness :
    (records.get ⟨6, by decide!⟩).label = "ref_el_" ∧
      derivedKey "ref_el_" 6 = "ref_5fel_5f_689" ∧
      (records.get ⟨6, by decide!⟩).key = "ref_5fel_5f_689" ∧
      (records.get ⟨48, by decide!⟩).key = derivedKey "rp_trisect_left" 48 :=
  ⟨by decide!, by decide!, by decide!, key_derived.2.1 ⟨48, by decide!⟩⟩

/-- C8: the records are in strictly ascending order of their keys once the
trailing `_<number>` is removed: for adjacent records the stripped key of the
earlier one is strictly smaller, lexicographically by character code, than that
of the later one; the full keys are not ascending at `rows_720`, `rows_5f_721`. -/
theorem stripped_keys_ascending :
    (∀ (i : Nat) (h : i + 1 < records.length),
      stripNumberSuffix (records.get ⟨i, Nat.lt_of_succ_lt h⟩).key <
        stripNumberSuffix (records.get ⟨i + 1, h⟩).key) ∧
      keys[37]? = some "rows_720" ∧ keys[38]? = some "rows_5f_721" ∧
      stripNumberSuffix "rows_720" = "rows" ∧ stripNumberSuffix "rows_5f_721" = "rows_5f" ∧
      ¬ ("rows_720" < "rows_5f_721") := by
  have hsorted : List.Pairwise
      (fun a b : Record => stripNumberSuffix a.key < stripNumberSuffix b.key) records := by
    decide!
  refine ⟨?_, by decide!⟩
  intro i h
  exact List.pairwise_iff_get.1 hsorted ⟨i, Nat.lt_of_succ_lt h⟩ ⟨i + 1, h⟩
    (Fin.mk_lt_mk.2 (Nat.lt_succ_self i))

theorem stripped_keys_ascending_witness :
    stripNumberSuffix (records.get ⟨7, by decide!⟩).key = "ref_5fpat" ∧
      stripNumberSuffix (records.get ⟨8, by decide!⟩).key = "ref_5fpat_5f" ∧
      stripNumberSuffix (records.get ⟨7, by decide!⟩).key <
        stripNumberSuffix (records.get ⟨8, by decide!⟩).key :=
  ⟨by decide!, by decide!, stripped_keys_ascending.1 7 (by decide!)⟩

/-- C9: the file is a single first-letter bucket: every key begins with `r`
and every label begins with `r` or `R`. -/
theorem first_letter_bucket (r : Record) (hr : r ∈ records) :
    r.key.data.head? = some 'r' ∧
      (r.label.data.head? = some 'r' ∨ r.label.data.head? = some 'R') := by
  have h : ∀ r ∈ records, r.key.data.head? = some 'r' ∧
      (r.label.data.head? = some 'r' ∨ r.label.data.head? = some 'R') := by decide!
  exact h r hr

theorem first_letter_bucket_witness :
    rbeginRecord ∈ records ∧ rbeginRecord.key.data.head? = some 'r' ∧
      (rbeginRecord.label.data.head? = some 'r' ∨ rbeginRecord.label.data.head? = some 'R') :=
  ⟨by decide!, first_letter_bucket rbeginRecord (by decide!)⟩

end SearchIndex
